import Mathlib

/-!
Verification of the builder lifecycle orchestrator
(`crates/rbuilder/src/live_builder/cli.rs`).

The development embeds the CLI data model (the `Cli` command enum and the
`BaseCliArgs` / `L1CliArgs` override deltas), the configuration-merge step,
the cancellation signal and the `run` function's control flow as a trace of
observable events parameterised by the outcome of each effectful operation.
-/

set_option autoImplicit false

deriving instance DecidableEq for Except

namespace RbuilderCli

/-! ### Override deltas (from `BaseCliArgs` and `L1CliArgs` in cli.rs) -/

/-- Mirror of `BaseCliArgs` (cli.rs lines 54-106): the general override
delta. Every field is structurally optional; `none` means "inherit base". -/
structure BaseCliArgs where
  log_json : Option Bool := none
  log_level : Option String := none
  full_telemetry_server_port : Option Nat := none
  full_telemetry_server_ip : Option String := none
  redacted_telemetry_server_port : Option Nat := none
  redacted_telemetry_server_ip : Option String := none
  log_color : Option Bool := none
  log_enable_dynamic : Option Bool := none
  error_storage_path : Option String := none
  coinbase_secret_key : Option String := none
  flashbots_db : Option String := none
  jsonrpc_server_port : Option Nat := none
  jsonrpc_server_ip : Option String := none
  ignore_cancellable_orders : Option Bool := none
  ignore_blobs : Option Bool := none
  chain : Option String := none
  reth_datadir : Option String := none
deriving DecidableEq, Repr

/-- Mirror of `L1CliArgs` (cli.rs lines 108-133): the domain-specific
override delta. -/
structure L1CliArgs where
  dry_run : Option Bool := none
  dry_run_validation_url : Option (List String) := none
  optimistic_enabled : Option Bool := none
  optimistic_max_bid_value_eth : Option String := none
  optimistic_prevalidate_optimistic_blocks : Option Bool := none
  max_concurrent_seals : Option Nat := none
  cl_node_url : Option (List String) := none
  genesis_fork_version : Option String := none
deriving DecidableEq, Repr

/-- The all-empty general delta, mirror of `BaseCliArgs::default()`. -/
def emptyBase : BaseCliArgs := {}

/-- The all-empty domain-specific delta, mirror of `L1CliArgs::default()`. -/
def emptyL1 : L1CliArgs := {}

/-! ### Resolved configuration and merge

The concrete `BaseConfig` struct and the `MergeFromCli` implementations live
in `base_config.rs`, which is not among the analyzed sources; they are
modelled from the spec here. -/

/-- Modelled from the spec: the fully-resolved `BaseConfiguration` (spec
section 3), with one concrete field per CLI override flag. The struct itself
(`BaseConfig`) lives in `base_config.rs`, outside the analyzed sources. -/
structure BaseConfiguration where
  log_json : Bool
  log_level : String
  full_telemetry_server_port : Nat
  full_telemetry_server_ip : String
  redacted_telemetry_server_port : Nat
  redacted_telemetry_server_ip : String
  log_color : Bool
  log_enable_dynamic : Bool
  error_storage_path : String
  coinbase_secret_key : String
  flashbots_db : String
  jsonrpc_server_port : Nat
  jsonrpc_server_ip : String
  ignore_cancellable_orders : Bool
  ignore_blobs : Bool
  chain : String
  reth_datadir : String
  dry_run : Bool
  dry_run_validation_url : List String
  optimistic_enabled : Bool
  optimistic_max_bid_value_eth : String
  optimistic_prevalidate_optimistic_blocks : Bool
  max_concurrent_seals : Nat
  cl_node_url : List String
  genesis_fork_version : String
deriving DecidableEq, Repr

/-- Modelled from the spec: `merge(base, delta)` for the general delta
(spec section 4.2: "for every field of delta that carries a value, overwrite
the corresponding base field; fields without a value are untouched"). The
`MergeFromCli<BaseCliArgs>` implementation is in `base_config.rs`, outside
the analyzed sources. -/
def mergeBase (c : BaseConfiguration) (d : BaseCliArgs) : BaseConfiguration :=
  { c with
    log_json := d.log_json.getD c.log_json
    log_level := d.log_level.getD c.log_level
    full_telemetry_server_port := d.full_telemetry_server_port.getD c.full_telemetry_server_port
    full_telemetry_server_ip := d.full_telemetry_server_ip.getD c.full_telemetry_server_ip
    redacted_telemetry_server_port :=
      d.redacted_telemetry_server_port.getD c.redacted_telemetry_server_port
    redacted_telemetry_server_ip :=
      d.redacted_telemetry_server_ip.getD c.redacted_telemetry_server_ip
    log_color := d.log_color.getD c.log_color
    log_enable_dynamic := d.log_enable_dynamic.getD c.log_enable_dynamic
    error_storage_path := d.error_storage_path.getD c.error_storage_path
    coinbase_secret_key := d.coinbase_secret_key.getD c.coinbase_secret_key
    flashbots_db := d.flashbots_db.getD c.flashbots_db
    jsonrpc_server_port := d.jsonrpc_server_port.getD c.jsonrpc_server_port
    jsonrpc_server_ip := d.jsonrpc_server_ip.getD c.jsonrpc_server_ip
    ignore_cancellable_orders := d.ignore_cancellable_orders.getD c.ignore_cancellable_orders
    ignore_blobs := d.ignore_blobs.getD c.ignore_blobs
    chain := d.chain.getD c.chain
    reth_datadir := d.reth_datadir.getD c.reth_datadir }

/-- Modelled from the spec: `merge(base, delta)` for the domain-specific
delta (`MergeFromCli<L1CliArgs>`, implemented in `base_config.rs`, outside
the analyzed sources). -/
def mergeL1 (c : BaseConfiguration) (d : L1CliArgs) : BaseConfiguration :=
  { c with
    dry_run := d.dry_run.getD c.dry_run
    dry_run_validation_url := d.dry_run_validation_url.getD c.dry_run_validation_url
    optimistic_enabled := d.optimistic_enabled.getD c.optimistic_enabled
    optimistic_max_bid_value_eth :=
      d.optimistic_max_bid_value_eth.getD c.optimistic_max_bid_value_eth
    optimistic_prevalidate_optimistic_blocks :=
      d.optimistic_prevalidate_optimistic_blocks.getD c.optimistic_prevalidate_optimistic_blocks
    max_concurrent_seals := d.max_concurrent_seals.getD c.max_concurrent_seals
    cl_node_url := d.cl_node_url.getD c.cl_node_url
    genesis_fork_version := d.genesis_fork_version.getD c.genesis_fork_version }

/-- The fixed merge order used by both the `run` and `config` paths
(cli.rs lines 184-185 and 204-205): general delta first, domain-specific
delta second. -/
def applyCliMerges (c : BaseConfiguration) (b : BaseCliArgs) (l : L1CliArgs) :
    BaseConfiguration :=
  mergeL1 (mergeBase c b) l

/-! ### Cancellation signal -/

/-- Modelled from the spec: the `CancellationSignal` (spec section 3), a
shared flag that is terminal once triggered. The concrete type is
`tokio_util::sync::CancellationToken`, external to the repository. -/
structure CancellationSignal where
  cancelled : Bool
deriving DecidableEq, Repr

/-- Modelled from the spec: triggering the signal sets the flag; there is no
operation that resets it. -/
def CancellationSignal.cancel (_s : CancellationSignal) : CancellationSignal :=
  { cancelled := true }

/-! ### Command surface (the `Cli` enum, cli.rs lines 27-40) -/

/-- The parsed run/config payload, mirror of `RunCmd` (cli.rs lines 42-52):
a config file path (positional, with the `RBUILDER_CONFIG` environment
variable as fallback) plus the two flattened override deltas. -/
structure RunCmd where
  config : String
  base : BaseCliArgs
  l1 : L1CliArgs
deriving DecidableEq, Repr

/-- Mirror of the `Cli` enum (cli.rs lines 27-40): the closed set of four
commands. -/
inductive CliCmd where
  | run (cmd : RunCmd)
  | config (cmd : RunCmd)
  | version
  | sysperf
deriving DecidableEq, Repr

/-! ### Command dispatcher

`Cli::parse()` (cli.rs line 179) is clap-derived from the attributes on
`Cli`, `RunCmd`, `BaseCliArgs` and `L1CliArgs`: four sub-command verbs, a
required positional config path with an environment-variable fallback, and
one long value-taking flag per optional delta field. The derive's semantics
are embedded as a token parser over the argument list. -/

/-- A token is a long flag when it begins with `--` (clap's long-flag
syntax). -/
def isLongFlag (s : String) : Bool :=
  match s.data with
  | '-' :: '-' :: _ => true
  | _ => false

/-- Parse a boolean flag value (clap's `Option<bool>` fields require an
explicit `true` or `false` value). -/
def parseBoolVal (s : String) : Except String Bool :=
  if s = "true" then .ok true
  else if s = "false" then .ok false
  else .error ("invalid boolean value: " ++ s)

/-- The numeric value of a decimal digit character, `none` otherwise. -/
def digitVal (c : Char) : Option Nat :=
  if 48 ≤ c.toNat ∧ c.toNat ≤ 57 then some (c.toNat - 48) else none

/-- Accumulate a decimal number over a character list. -/
def natFromChars : List Char → Nat → Option Nat
  | [], acc => some acc
  | c :: cs, acc =>
      match digitVal c with
      | some d => natFromChars cs (acc * 10 + d)
      | none => none

/-- Parse a non-empty all-digit string as a natural number. -/
def strToNat (s : String) : Option Nat :=
  match s.data with
  | [] => none
  | cs => natFromChars cs 0

/-- Parse a `u16` flag value. -/
def parseU16Val (s : String) : Except String Nat :=
  match strToNat s with
  | some n => if n < 65536 then .ok n else .error ("value out of range: " ++ s)
  | none => .error ("invalid number: " ++ s)

/-- Parse a `u64` flag value. -/
def parseU64Val (s : String) : Except String Nat :=
  match strToNat s with
  | some n =>
      if n < 18446744073709551616 then .ok n
      else .error ("value out of range: " ++ s)
  | none => .error ("invalid number: " ++ s)

/-- Apply one long flag with its value to the pair of deltas. The flag
names come one-for-one from the field names of `BaseCliArgs` (cli.rs lines
54-106) and `L1CliArgs` (cli.rs lines 108-133) under clap's kebab-case
renaming; an unknown flag is a usage error. `Vec<String>` flags append one
value per occurrence. -/
def applyFlag (name val : String) (b : BaseCliArgs) (l : L1CliArgs) :
    Except String (BaseCliArgs × L1CliArgs) :=
  if name = "--log-json" then
    (parseBoolVal val).map fun v => ({ b with log_json := some v }, l)
  else if name = "--log-level" then
    .ok ({ b with log_level := some val }, l)
  else if name = "--full-telemetry-server-port" then
    (parseU16Val val).map fun v => ({ b with full_telemetry_server_port := some v }, l)
  else if name = "--full-telemetry-server-ip" then
    .ok ({ b with full_telemetry_server_ip := some val }, l)
  else if name = "--redacted-telemetry-server-port" then
    (parseU16Val val).map fun v => ({ b with redacted_telemetry_server_port := some v }, l)
  else if name = "--redacted-telemetry-server-ip" then
    .ok ({ b with redacted_telemetry_server_ip := some val }, l)
  else if name = "--log-color" then
    (parseBoolVal val).map fun v => ({ b with log_color := some v }, l)
  else if name = "--log-enable-dynamic" then
    (parseBoolVal val).map fun v => ({ b with log_enable_dynamic := some v }, l)
  else if name = "--error-storage-path" then
    .ok ({ b with error_storage_path := some val }, l)
  else if name = "--coinbase-secret-key" then
    .ok ({ b with coinbase_secret_key := some val }, l)
  else if name = "--flashbots-db" then
    .ok ({ b with flashbots_db := some val }, l)
  else if name = "--jsonrpc-server-port" then
    (parseU16Val val).map fun v => ({ b with jsonrpc_server_port := some v }, l)
  else if name = "--jsonrpc-server-ip" then
    .ok ({ b with jsonrpc_server_ip := some val }, l)
  else if name = "--ignore-cancellable-orders" then
    (parseBoolVal val).map fun v => ({ b with ignore_cancellable_orders := some v }, l)
  else if name = "--ignore-blobs" then
    (parseBoolVal val).map fun v => ({ b with ignore_blobs := some v }, l)
  else if name = "--chain" then
    .ok ({ b with chain := some val }, l)
  else if name = "--reth-datadir" then
    .ok ({ b with reth_datadir := some val }, l)
  else if name = "--dry-run" then
    (parseBoolVal val).map fun v => (b, { l with dry_run := some v })
  else if name = "--dry-run-validation-url" then
    .ok (b, { l with
      dry_run_validation_url := some ((l.dry_run_validation_url.getD []) ++ [val]) })
  else if name = "--optimistic-enabled" then
    (parseBoolVal val).map fun v => (b, { l with optimistic_enabled := some v })
  else if name = "--optimistic-max-bid-value-eth" then
    .ok (b, { l with optimistic_max_bid_value_eth := some val })
  else if name = "--optimistic-prevalidate-optimistic-blocks" then
    (parseBoolVal val).map fun v =>
      (b, { l with optimistic_prevalidate_optimistic_blocks := some v })
  else if name = "--max-concurrent-seals" then
    (parseU64Val val).map fun v => (b, { l with max_concurrent_seals := some v })
  else if name = "--cl-node-url" then
    .ok (b, { l with cl_node_url := some ((l.cl_node_url.getD []) ++ [val]) })
  else if name = "--genesis-fork-version" then
    .ok (b, { l with genesis_fork_version := some val })
  else .error ("unexpected argument: " ++ name)

/-- Parse the arguments of `run`/`config` (the `RunCmd` payload): long
flags take the next token as value, the single positional is the config
path, and a second positional is a usage error. At the end the config path
falls back to the `RBUILDER_CONFIG` environment variable and is required. -/
def parseRunArgs (env : Option String) :
    List String → Option String → BaseCliArgs → L1CliArgs →
    Except String RunCmd
  | [], pos, b, l =>
      match pos.or env with
      | some p => .ok ⟨p, b, l⟩
      | none => .error "missing required argument: config"
  | tok :: rest, pos, b, l =>
      if isLongFlag tok then
        match rest with
        | [] => .error ("missing value for " ++ tok)
        | val :: rest2 =>
            match applyFlag tok val b l with
            | .ok (b2, l2) => parseRunArgs env rest2 pos b2 l2
            | .error e => .error e
      else
        match pos with
        | none => parseRunArgs env rest (some tok) b l
        | some _ => .error ("unexpected argument: " ++ tok)

/-- Parse a run/config sub-command's arguments starting from empty deltas
(mirrors clap's `#[command(flatten)]` of defaulted structs). -/
def parseRunCmd (args : List String) (env : Option String) :
    Except String RunCmd :=
  parseRunArgs env args none emptyBase emptyL1

/-- The command dispatcher: mirror of `Cli::parse()` over the `Cli` enum
(cli.rs lines 27-40). The four verbs `run`, `config`, `version`, `sysperf`
map to the four variants; anything else, and invalid or missing arguments,
is a usage error. `env` is the value of `RBUILDER_CONFIG`, if set. -/
def parseCli (args : List String) (env : Option String) :
    Except String CliCmd :=
  match args with
  | [] => .error "usage: a subcommand is required"
  | verb :: rest =>
      if verb = "run" then (parseRunCmd rest env).map CliCmd.run
      else if verb = "config" then (parseRunCmd rest env).map CliCmd.config
      else if verb = "version" then
        match rest with
        | [] => .ok CliCmd.version
        | t :: _ => .error ("unexpected argument: " ++ t)
      else if verb = "sysperf" then
        match rest with
        | [] => .ok CliCmd.sysperf
        | t :: _ => .error ("unexpected argument: " ++ t)
      else .error ("unrecognized subcommand: " ++ verb)

/-- `true` on a usage error (the dispatcher produced no command). -/
def isUsageError (r : Except String CliCmd) : Bool :=
  match r with
  | .error _ => true
  | .ok _ => false

/-! ### Lifecycle events

`run` (cli.rs lines 175-235) is embedded as a function from the outcome of
each effectful operation to the sequence of observable events it performs
and its result. -/

/-- Observable events of one `run` invocation, in the order the source
performs them. -/
inductive Event where
  | configLoaded
  | mergedBase
  | mergedL1
  | tracingSetup
  | cancelCreated
  | redactedSpawnStart
  | redactedSpawnDone
  | fullSpawnStart
  | fullSpawnDone
  | providerCreated
  | newBuilderCalled
  | builderConstructed
  | ctrlcTaskSpawned
  | onRunHookCalled
  | builderRunStart
  | builderRunDone (ok : Bool)
  | ctrlcAwaited
  | configPrinted
  | versionPrinted
  | sysperfRun
  | sysperfPrinted
deriving DecidableEq, Repr

/-- The outcome of each fallible operation invoked by `run`, `true` meaning
success. These parameterise the trace model. -/
structure RunOutcomes where
  loadConfigOk : Bool
  setupTracingOk : Bool
  redactedSpawnOk : Bool
  fullSpawnOk : Bool
  createProviderOk : Bool
  newBuilderOk : Bool
  builderRunOk : Bool
  sysperfOk : Bool
deriving DecidableEq, Repr

/-- The `Cli::Run` branch of `run` (cli.rs lines 203-234), line by line:
load+merge config, set up tracing, create the cancellation token, spawn the
redacted then the full telemetry server, create the provider factory, build
the live builder, spawn the interrupt-listener task, call the optional
`on_run` hook, await `builder.run()`, and finally await the
interrupt-listener task. Each `?` in the source becomes an early return
with an error and the trace accumulated so far. -/
def runRun (o : RunOutcomes) (onRun : Bool) : List Event × Except Unit Unit :=
  if !o.loadConfigOk then ([], .error ()) else
  let t := [Event.configLoaded, Event.mergedBase, Event.mergedL1]
  if !o.setupTracingOk then (t, .error ()) else
  let t := t ++ [Event.tracingSetup, Event.cancelCreated, Event.redactedSpawnStart]
  if !o.redactedSpawnOk then (t, .error ()) else
  let t := t ++ [Event.redactedSpawnDone, Event.fullSpawnStart]
  if !o.fullSpawnOk then (t, .error ()) else
  let t := t ++ [Event.fullSpawnDone]
  if !o.createProviderOk then (t, .error ()) else
  let t := t ++ [Event.providerCreated, Event.newBuilderCalled]
  if !o.newBuilderOk then (t, .error ()) else
  let t := t ++ [Event.builderConstructed, Event.ctrlcTaskSpawned]
  let t := if onRun then t ++ [Event.onRunHookCalled] else t
  let t := t ++ [Event.builderRunStart]
  if !o.builderRunOk then (t ++ [Event.builderRunDone false], .error ()) else
  (t ++ [Event.builderRunDone true, Event.ctrlcAwaited], .ok ())

/-- The whole of `run` (cli.rs lines 175-235): dispatch on the parsed
command. `Config` loads and merges the configuration, prints it and
returns; `Version` calls the supplied version printer and returns;
`SysPerf` runs the benchmarks, prints the results and returns; `Run`
continues with the lifecycle. `onRun` records whether a caller-supplied
`on_run` hook was passed. -/
def runModel (cli : CliCmd) (o : RunOutcomes) (onRun : Bool) :
    List Event × Except Unit Unit :=
  match cli with
  | .config _ =>
      if !o.loadConfigOk then ([], .error ())
      else ([Event.configLoaded, Event.mergedBase, Event.mergedL1,
             Event.configPrinted], .ok ())
  | .version => ([Event.versionPrinted], .ok ())
  | .sysperf =>
      if !o.sysperfOk then ([], .error ())
      else ([Event.sysperfRun, Event.sysperfPrinted], .ok ())
  | .run _ => runRun o onRun

/-- `a` occurs strictly before `b` in the list `l` (both occur, and the
first occurrence of `a` is earlier). -/
def eventBefore (l : List Event) (a b : Event) : Prop :=
  a ∈ l ∧ b ∈ l ∧ l.indexOf a < l.indexOf b

instance (l : List Event) (a b : Event) : Decidable (eventBefore l a b) := by
  unfold eventBefore; infer_instance

/-- The interrupt-listener task body (cli.rs lines 224-227):
`ctrl_c().await.unwrap_or_default(); cancel.cancel()`. The result of waiting
for the interrupt is discarded by `unwrap_or_default`, and the signal is
triggered unconditionally. `ctrlcResult` is `false` when `ctrl_c` returned
an error. -/
def ctrlcTask (_ctrlcResult : Bool) (cancel : CancellationSignal) :
    CancellationSignal :=
  cancel.cancel

end RbuilderCli

namespace RbuilderCli

/-! ### Theorems -/

/-- The outcome vector in which every effectful operation succeeds. -/
def allOk : RunOutcomes :=
  ⟨true, true, true, true, true, true, true, true⟩

/-- C8: the CancellationSignal is terminal and trigger-idempotent: once
triggered it is observably cancelled, it never resets (the only mutating
operation leaves it cancelled), and triggering a second time leaves the
state identical to triggering once. -/
theorem cancellation_signal_terminal_and_idempotent (s : CancellationSignal) :
    (s.cancel).cancelled = true ∧
    s.cancel.cancel = s.cancel :=
  ⟨rfl, rfl⟩

/-- C10: the interrupt-listener task triggers the CancellationSignal
unconditionally once its wait ends: the result of waiting for the external
interrupt is discarded, so the signal is triggered even when the wait
failed, and the task's effect does not depend on that result. -/
theorem ctrlc_task_always_triggers_cancel (r : Bool) (c : CancellationSignal) :
    (ctrlcTask r c).cancelled = true ∧
    ctrlcTask false c = ctrlcTask true c :=
  ⟨rfl, rfl⟩

/-- C1 counterexample: in a run where every operation succeeds except the
builder's run operation, `run` returns the error while the trace contains
the builder-run failure but no await of the interrupt-listener task — so
the claim that the coordinator still waits for the interrupt-listener task
before returning is false on the code. -/
theorem builder_run_error_skips_interrupt_wait_cex :
    (runRun { allOk with builderRunOk := false } true).2 = Except.error () ∧
    Event.builderRunDone false ∈ (runRun { allOk with builderRunOk := false } true).1 ∧
    Event.ctrlcAwaited ∉ (runRun { allOk with builderRunOk := false } true).1 := by
  decide

/-- C1 amended: the coordinator awaits the interrupt-listener task before
returning only when the builder's run operation completes successfully;
when the builder's run operation completes with an error, `run` propagates
the error immediately without awaiting the interrupt-listener task. -/
theorem interrupt_wait_only_after_successful_run (o : RunOutcomes) (r : Bool) :
    ((runRun o r).2 = Except.ok () → Event.ctrlcAwaited ∈ (runRun o r).1) ∧
    (Event.builderRunDone false ∈ (runRun o r).1 →
      (runRun o r).2 = Except.error () ∧
      Event.ctrlcAwaited ∉ (runRun o r).1) := by
  obtain ⟨a, b, c, d, e, f, g, k⟩ := o
  revert a b c d e f g k r
  decide

/-- Witness for C1 amended at the all-successful outcome. -/
theorem interrupt_wait_only_after_successful_run_witness :
    Event.ctrlcAwaited ∈ (runRun allOk true).1 :=
  (interrupt_wait_only_after_successful_run allOk true).1 (by decide)

/-- C2 counterexample: in a fully successful run with a hook supplied, the
hook is called, and the interrupt-listener task is spawned strictly before
the hook runs — so the claim that the hook executes before the
interrupt-listener task is spawned is false on the code. -/
theorem on_run_hook_after_interrupt_spawn_cex :
    Event.onRunHookCalled ∈ (runRun allOk true).1 ∧
    eventBefore (runRun allOk true).1 Event.ctrlcTaskSpawned Event.onRunHookCalled ∧
    ¬ eventBefore (runRun allOk true).1 Event.onRunHookCalled Event.ctrlcTaskSpawned := by
  decide

/-- C2 amended: whenever the `on_run` hook is called, it runs after the
interrupt-listener task has been spawned and before the builder's run
operation is started. -/
theorem on_run_hook_between_spawn_and_builder_run (o : RunOutcomes) (r : Bool)
    (h : Event.onRunHookCalled ∈ (runRun o r).1) :
    eventBefore (runRun o r).1 Event.ctrlcTaskSpawned Event.onRunHookCalled ∧
    eventBefore (runRun o r).1 Event.onRunHookCalled Event.builderRunStart := by
  revert h
  obtain ⟨a, b, c, d, e, f, g, k⟩ := o
  revert a b c d e f g k r
  decide

/-- Witness for C2 amended at the all-successful outcome with a hook. -/
theorem on_run_hook_between_spawn_and_builder_run_witness :
    eventBefore (runRun allOk true).1 Event.ctrlcTaskSpawned Event.onRunHookCalled ∧
    eventBefore (runRun allOk true).1 Event.onRunHookCalled Event.builderRunStart :=
  on_run_hook_between_spawn_and_builder_run allOk true (by decide)

/-- C6: in every successful run the redacted telemetry spawn completes
before the full telemetry spawn starts (indeed in every run that reaches
the full spawn), and a failure of either spawn makes `run` return an
error. -/
theorem redacted_telemetry_before_full (o : RunOutcomes) (r : Bool) :
    ((runRun o r).2 = Except.ok () →
      eventBefore (runRun o r).1 Event.redactedSpawnDone Event.fullSpawnStart) ∧
    (Event.fullSpawnStart ∈ (runRun o r).1 →
      eventBefore (runRun o r).1 Event.redactedSpawnDone Event.fullSpawnStart) ∧
    (o.redactedSpawnOk = false → (runRun o r).2 = Except.error ()) ∧
    (o.fullSpawnOk = false → (runRun o r).2 = Except.error ()) := by
  obtain ⟨a, b, c, d, e, f, g, k⟩ := o
  revert a b c d e f g k r
  decide

/-- Witness for C6 at the all-successful outcome. -/
theorem redacted_telemetry_before_full_witness :
    eventBefore (runRun allOk true).1 Event.redactedSpawnDone Event.fullSpawnStart :=
  (redacted_telemetry_before_full allOk true).1 (by decide)

/-- C7: if either telemetry server spawn fails, `run` returns an error and
the builder-construction operation `new_builder` is never invoked. -/
theorem telemetry_spawn_failure_no_builder (o : RunOutcomes) (r : Bool)
    (h : o.redactedSpawnOk = false ∨ o.fullSpawnOk = false) :
    (runRun o r).2 = Except.error () ∧
    Event.newBuilderCalled ∉ (runRun o r).1 ∧
    Event.builderConstructed ∉ (runRun o r).1 := by
  revert h
  obtain ⟨a, b, c, d, e, f, g, k⟩ := o
  revert a b c d e f g k r
  decide

/-- Witness for C7 with the redacted spawn failing. -/
theorem telemetry_spawn_failure_no_builder_witness :
    (runRun { allOk with redactedSpawnOk := false } true).2 = Except.error () ∧
    Event.newBuilderCalled ∉ (runRun { allOk with redactedSpawnOk := false } true).1 ∧
    Event.builderConstructed ∉ (runRun { allOk with redactedSpawnOk := false } true).1 :=
  telemetry_spawn_failure_no_builder { allOk with redactedSpawnOk := false } true
    (Or.inl (by decide))

end RbuilderCli

namespace RbuilderCli

/-- A sample resolved configuration used by concrete witnesses (JSON-RPC
port 8645, as in the spec's worked example). -/
def sampleConfig : BaseConfiguration :=
  { log_json := false
    log_level := "info"
    full_telemetry_server_port := 6061
    full_telemetry_server_ip := "0.0.0.0"
    redacted_telemetry_server_port := 6070
    redacted_telemetry_server_ip := "0.0.0.0"
    log_color := false
    log_enable_dynamic := false
    error_storage_path := "/tmp/error.sqlite"
    coinbase_secret_key := ""
    flashbots_db := ""
    jsonrpc_server_port := 8645
    jsonrpc_server_ip := "0.0.0.0"
    ignore_cancellable_orders := true
    ignore_blobs := false
    chain := "mainnet"
    reth_datadir := "/data/reth"
    dry_run := false
    dry_run_validation_url := []
    optimistic_enabled := false
    optimistic_max_bid_value_eth := "0.0"
    optimistic_prevalidate_optimistic_blocks := false
    max_concurrent_seals := 8
    cl_node_url := []
    genesis_fork_version := "" }

/-- C4: merge is a left-biased overwrite: each field of the merged
configuration equals the delta's value when the delta carries one there and
the base's value otherwise, and merging an all-empty delta returns the base
unchanged — for both the general and the domain-specific delta. -/
theorem merge_left_biased_overwrite (c : BaseConfiguration) (d : BaseCliArgs)
    (e : L1CliArgs) :
    (∀ v, d.log_json = some v → (mergeBase c d).log_json = v) ∧
    (d.log_json = none → (mergeBase c d).log_json = c.log_json) ∧
    (∀ v, d.log_level = some v → (mergeBase c d).log_level = v) ∧
    (d.log_level = none → (mergeBase c d).log_level = c.log_level) ∧
    (∀ v, d.full_telemetry_server_port = some v →
      (mergeBase c d).full_telemetry_server_port = v) ∧
    (d.full_telemetry_server_port = none →
      (mergeBase c d).full_telemetry_server_port = c.full_telemetry_server_port) ∧
    (∀ v, d.full_telemetry_server_ip = some v →
      (mergeBase c d).full_telemetry_server_ip = v) ∧
    (d.full_telemetry_server_ip = none →
      (mergeBase c d).full_telemetry_server_ip = c.full_telemetry_server_ip) ∧
    (∀ v, d.redacted_telemetry_server_port = some v →
      (mergeBase c d).redacted_telemetry_server_port = v) ∧
    (d.redacted_telemetry_server_port = none →
      (mergeBase c d).redacted_telemetry_server_port = c.redacted_telemetry_server_port) ∧
    (∀ v, d.redacted_telemetry_server_ip = some v →
      (mergeBase c d).redacted_telemetry_server_ip = v) ∧
    (d.redacted_telemetry_server_ip = none →
      (mergeBase c d).redacted_telemetry_server_ip = c.redacted_telemetry_server_ip) ∧
    (∀ v, d.log_color = some v → (mergeBase c d).log_color = v) ∧
    (d.log_color = none → (mergeBase c d).log_color = c.log_color) ∧
    (∀ v, d.log_enable_dynamic = some v → (mergeBase c d).log_enable_dynamic = v) ∧
    (d.log_enable_dynamic = none →
      (mergeBase c d).log_enable_dynamic = c.log_enable_dynamic) ∧
    (∀ v, d.error_storage_path = some v → (mergeBase c d).error_storage_path = v) ∧
    (d.error_storage_path = none →
      (mergeBase c d).error_storage_path = c.error_storage_path) ∧
    (∀ v, d.coinbase_secret_key = some v → (mergeBase c d).coinbase_secret_key = v) ∧
    (d.coinbase_secret_key = none →
      (mergeBase c d).coinbase_secret_key = c.coinbase_secret_key) ∧
    (∀ v, d.flashbots_db = some v → (mergeBase c d).flashbots_db = v) ∧
    (d.flashbots_db = none → (mergeBase c d).flashbots_db = c.flashbots_db) ∧
    (∀ v, d.jsonrpc_server_port = some v → (mergeBase c d).jsonrpc_server_port = v) ∧
    (d.jsonrpc_server_port = none →
      (mergeBase c d).jsonrpc_server_port = c.jsonrpc_server_port) ∧
    (∀ v, d.jsonrpc_server_ip = some v → (mergeBase c d).jsonrpc_server_ip = v) ∧
    (d.jsonrpc_server_ip = none →
      (mergeBase c d).jsonrpc_server_ip = c.jsonrpc_server_ip) ∧
    (∀ v, d.ignore_cancellable_orders = some v →
      (mergeBase c d).ignore_cancellable_orders = v) ∧
    (d.ignore_cancellable_orders = none →
      (mergeBase c d).ignore_cancellable_orders = c.ignore_cancellable_orders) ∧
    (∀ v, d.ignore_blobs = some v → (mergeBase c d).ignore_blobs = v) ∧
    (d.ignore_blobs = none → (mergeBase c d).ignore_blobs = c.ignore_blobs) ∧
    (∀ v, d.chain = some v → (mergeBase c d).chain = v) ∧
    (d.chain = none → (mergeBase c d).chain = c.chain) ∧
    (∀ v, d.reth_datadir = some v → (mergeBase c d).reth_datadir = v) ∧
    (d.reth_datadir = none → (mergeBase c d).reth_datadir = c.reth_datadir) ∧
    (∀ v, e.dry_run = some v → (mergeL1 c e).dry_run = v) ∧
    (e.dry_run = none → (mergeL1 c e).dry_run = c.dry_run) ∧
    (∀ v, e.dry_run_validation_url = some v →
      (mergeL1 c e).dry_run_validation_url = v) ∧
    (e.dry_run_validation_url = none →
      (mergeL1 c e).dry_run_validation_url = c.dry_run_validation_url) ∧
    (∀ v, e.optimistic_enabled = some v → (mergeL1 c e).optimistic_enabled = v) ∧
    (e.optimistic_enabled = none →
      (mergeL1 c e).optimistic_enabled = c.optimistic_enabled) ∧
    (∀ v, e.optimistic_max_bid_value_eth = some v →
      (mergeL1 c e).optimistic_max_bid_value_eth = v) ∧
    (e.optimistic_max_bid_value_eth = none →
      (mergeL1 c e).optimistic_max_bid_value_eth = c.optimistic_max_bid_value_eth) ∧
    (∀ v, e.optimistic_prevalidate_optimistic_blocks = some v →
      (mergeL1 c e).optimistic_prevalidate_optimistic_blocks = v) ∧
    (e.optimistic_prevalidate_optimistic_blocks = none →
      (mergeL1 c e).optimistic_prevalidate_optimistic_blocks =
        c.optimistic_prevalidate_optimistic_blocks) ∧
    (∀ v, e.max_concurrent_seals = some v → (mergeL1 c e).max_concurrent_seals = v) ∧
    (e.max_concurrent_seals = none →
      (mergeL1 c e).max_concurrent_seals = c.max_concurrent_seals) ∧
    (∀ v, e.cl_node_url = some v → (mergeL1 c e).cl_node_url = v) ∧
    (e.cl_node_url = none → (mergeL1 c e).cl_node_url = c.cl_node_url) ∧
    (∀ v, e.genesis_fork_version = some v → (mergeL1 c e).genesis_fork_version = v) ∧
    (e.genesis_fork_version = none →
      (mergeL1 c e).genesis_fork_version = c.genesis_fork_version) ∧
    mergeBase c emptyBase = c ∧
    mergeL1 c emptyL1 = c := by
  simp +contextual [mergeBase, mergeL1, emptyBase, emptyL1]

/-- Witness for C4: a delta carrying `log_json = true` overwrites the
sample configuration's value. -/
theorem merge_left_biased_overwrite_witness :
    (mergeBase sampleConfig { emptyBase with log_json := some true }).log_json = true :=
  (merge_left_biased_overwrite sampleConfig
    { emptyBase with log_json := some true } emptyL1).1 true rfl

end RbuilderCli

namespace RbuilderCli

/-- C3: merge precedence is fixed — the general delta is merged first and
the domain-specific delta second (`applyCliMerges`). A field carried by
either delta overrides the base document's value in the resolved
configuration: every general-delta field that carries a value survives the
subsequent domain-specific merge, and every domain-specific field that
carries a value ends up with the later delta's value, i.e.
`merge(merge(B, D1), D2).field = D2.field`. (The two deltas' field sets
are structurally disjoint in the source, so no field can be present in
both.) -/
theorem merge_precedence_general_then_domain (c : BaseConfiguration)
    (d1 : BaseCliArgs) (d2 : L1CliArgs) :
    (∀ v, d1.jsonrpc_server_port = some v →
      (applyCliMerges c d1 d2).jsonrpc_server_port = v) ∧
    (∀ v, d2.dry_run = some v → (applyCliMerges c d1 d2).dry_run = v) ∧
    (∀ v, d1.log_json = some v → (applyCliMerges c d1 d2).log_json = v) ∧
    (∀ v, d1.log_level = some v → (applyCliMerges c d1 d2).log_level = v) ∧
    (∀ v, d1.full_telemetry_server_port = some v →
      (applyCliMerges c d1 d2).full_telemetry_server_port = v) ∧
    (∀ v, d1.full_telemetry_server_ip = some v →
      (applyCliMerges c d1 d2).full_telemetry_server_ip = v) ∧
    (∀ v, d1.redacted_telemetry_server_port = some v →
      (applyCliMerges c d1 d2).redacted_telemetry_server_port = v) ∧
    (∀ v, d1.redacted_telemetry_server_ip = some v →
      (applyCliMerges c d1 d2).redacted_telemetry_server_ip = v) ∧
    (∀ v, d1.log_color = some v → (applyCliMerges c d1 d2).log_color = v) ∧
    (∀ v, d1.log_enable_dynamic = some v →
      (applyCliMerges c d1 d2).log_enable_dynamic = v) ∧
    (∀ v, d1.error_storage_path = some v →
      (applyCliMerges c d1 d2).error_storage_path = v) ∧
    (∀ v, d1.coinbase_secret_key = some v →
      (applyCliMerges c d1 d2).coinbase_secret_key = v) ∧
    (∀ v, d1.flashbots_db = some v → (applyCliMerges c d1 d2).flashbots_db = v) ∧
    (∀ v, d1.jsonrpc_server_ip = some v →
      (applyCliMerges c d1 d2).jsonrpc_server_ip = v) ∧
    (∀ v, d1.ignore_cancellable_orders = some v →
      (applyCliMerges c d1 d2).ignore_cancellable_orders = v) ∧
    (∀ v, d1.ignore_blobs = some v → (applyCliMerges c d1 d2).ignore_blobs = v) ∧
    (∀ v, d1.chain = some v → (applyCliMerges c d1 d2).chain = v) ∧
    (∀ v, d1.reth_datadir = some v → (applyCliMerges c d1 d2).reth_datadir = v) ∧
    (∀ v, d2.dry_run_validation_url = some v →
      (applyCliMerges c d1 d2).dry_run_validation_url = v) ∧
    (∀ v, d2.optimistic_enabled = some v →
      (applyCliMerges c d1 d2).optimistic_enabled = v) ∧
    (∀ v, d2.optimistic_max_bid_value_eth = some v →
      (applyCliMerges c d1 d2).optimistic_max_bid_value_eth = v) ∧
    (∀ v, d2.optimistic_prevalidate_optimistic_blocks = some v →
      (applyCliMerges c d1 d2).optimistic_prevalidate_optimistic_blocks = v) ∧
    (∀ v, d2.max_concurrent_seals = some v →
      (applyCliMerges c d1 d2).max_concurrent_seals = v) ∧
    (∀ v, d2.cl_node_url = some v → (applyCliMerges c d1 d2).cl_node_url = v) ∧
    (∀ v, d2.genesis_fork_version = some v →
      (applyCliMerges c d1 d2).genesis_fork_version = v) := by
  simp +contextual [applyCliMerges, mergeBase, mergeL1]

/-- Witness for C3, matching the spec's worked example: the base sets
JSON-RPC port 8645, the general delta overrides it with 9000, and the
resolved configuration's port is 9000. -/
theorem merge_precedence_general_then_domain_witness :
    (applyCliMerges sampleConfig
      { emptyBase with jsonrpc_server_port := some 9000 } emptyL1).jsonrpc_server_port
      = 9000 :=
  (merge_precedence_general_then_domain sampleConfig
    { emptyBase with jsonrpc_server_port := some 9000 } emptyL1).1 9000 rfl

end RbuilderCli

namespace RbuilderCli

/-- C9: the `config` command loads the base configuration, applies the
general then the domain-specific delta, prints the resolved configuration
and returns successfully; its trace never contains a telemetry spawn, a
CancellationSignal creation, or builder construction or execution. -/
theorem config_command_prints_and_exits (cmd : RunCmd) (o : RunOutcomes)
    (r : Bool) :
    (o.loadConfigOk = true →
      runModel (CliCmd.config cmd) o r =
        ([Event.configLoaded, Event.mergedBase, Event.mergedL1,
          Event.configPrinted], Except.ok ())) ∧
    Event.cancelCreated ∉ (runModel (CliCmd.config cmd) o r).1 ∧
    Event.redactedSpawnStart ∉ (runModel (CliCmd.config cmd) o r).1 ∧
    Event.redactedSpawnDone ∉ (runModel (CliCmd.config cmd) o r).1 ∧
    Event.fullSpawnStart ∉ (runModel (CliCmd.config cmd) o r).1 ∧
    Event.fullSpawnDone ∉ (runModel (CliCmd.config cmd) o r).1 ∧
    Event.newBuilderCalled ∉ (runModel (CliCmd.config cmd) o r).1 ∧
    Event.builderConstructed ∉ (runModel (CliCmd.config cmd) o r).1 ∧
    Event.builderRunStart ∉ (runModel (CliCmd.config cmd) o r).1 := by
  simp only [runModel]
  obtain ⟨a, b, c, d, e, f, g, k⟩ := o
  revert a b c d e f g k r
  decide

/-- Witness for C9 at a concrete command with a successful load. -/
theorem config_command_prints_and_exits_witness :
    runModel (CliCmd.config ⟨"cfg.toml", emptyBase, emptyL1⟩) allOk true =
      ([Event.configLoaded, Event.mergedBase, Event.mergedL1,
        Event.configPrinted], Except.ok ()) :=
  (config_command_prints_and_exits ⟨"cfg.toml", emptyBase, emptyL1⟩ allOk true).1 rfl

end RbuilderCli

namespace RbuilderCli

/-- C5: the dispatcher maps the four verbs `run`, `config`, `version`,
`sysperf` to the four command variants and routes them to their documented
effects (`version` prints the version and succeeds immediately; the others
are settled by the lifecycle theorems); any other verb is a usage error, as
are missing arguments (no arguments at all, or `run` without a config path
and without the environment fallback). Every successful parse yields
exactly one of the four variants. -/
theorem dispatcher_exhaustive_four_verbs (verb : String) (rest : List String)
    (env : Option String) :
    (verb ≠ "run" → verb ≠ "config" → verb ≠ "version" → verb ≠ "sysperf" →
      isUsageError (parseCli (verb :: rest) env) = true) ∧
    (∀ c, parseCli (verb :: rest) env = Except.ok c →
      (∃ cmd, c = CliCmd.run cmd) ∨ (∃ cmd, c = CliCmd.config cmd) ∨
      c = CliCmd.version ∨ c = CliCmd.sysperf) ∧
    isUsageError (parseCli [] env) = true ∧
    isUsageError (parseCli ["run"] none) = true ∧
    parseCli ["run", "cfg.toml"] env =
      Except.ok (CliCmd.run ⟨"cfg.toml", emptyBase, emptyL1⟩) ∧
    parseCli ["config", "cfg.toml"] env =
      Except.ok (CliCmd.config ⟨"cfg.toml", emptyBase, emptyL1⟩) ∧
    parseCli ["version"] env = Except.ok CliCmd.version ∧
    parseCli ["sysperf"] env = Except.ok CliCmd.sysperf ∧
    (∀ o r, runModel CliCmd.version o r = ([Event.versionPrinted], Except.ok ())) := by
  refine ⟨?_, ?_, ?_, ?_, ?_, ?_, ?_, ?_, ?_⟩
  · intro h1 h2 h3 h4
    simp [parseCli, h1, h2, h3, h4, isUsageError]
  · intro c _
    cases c with
    | run cmd => exact Or.inl ⟨cmd, rfl⟩
    | config cmd => exact Or.inr (Or.inl ⟨cmd, rfl⟩)
    | version => exact Or.inr (Or.inr (Or.inl rfl))
    | sysperf => exact Or.inr (Or.inr (Or.inr rfl))
  · rfl
  · rfl
  · rfl
  · rfl
  · rfl
  · rfl
  · intro o r
    rfl

/-- Witness for C5: the unrecognized verb `bogus` is rejected with a usage
error. -/
theorem dispatcher_exhaustive_four_verbs_witness :
    isUsageError (parseCli ["bogus"] none) = true :=
  (dispatcher_exhaustive_four_verbs "bogus" [] none).1
    (by decide) (by decide) (by decide) (by decide)

end RbuilderCli
